import Mathlib

/-!
Shallow embedding of the ai-ops-desk workflow pipeline (src/schemas.py,
src/agents.py, src/orchestrator.py).

Conventions of the embedding:
* Python `datetime` values are modelled as `Nat` ticks; each stage receives
  the current time `now` as an explicit argument (the code calls
  `datetime.utcnow()`).
* Python floats appearing in the guardrail comparisons are modelled as `ℚ`;
  all constants involved (0.2, 0.3, 0.7, 0.85) and their comparisons behave
  identically in binary floating point and in `ℚ`.
* A stage is a function `WorkflowPayload → Nat → Except String (WorkflowPayload × AgentLog)`;
  `Except.error` models a Python exception escaping the stage boundary
  (uncaught by the stage's own try/except), `Except.ok` a normal return.
* Python dict log entries are modelled as a structure whose optional fields
  are `none` when the corresponding key is absent from the dict.
-/

namespace OpsDesk

/-- Intent enum from src/schemas.py. -/
inductive Intent where
  | scheduling
  | support
  | billing
  | lead
  | other
  | spam
deriving DecidableEq, Repr

/-- The `.value` string of an Intent member. -/
def Intent.value : Intent → String
  | .scheduling => "scheduling"
  | .support => "support"
  | .billing => "billing"
  | .lead => "lead"
  | .other => "other"
  | .spam => "spam"

/-- Priority enum from src/schemas.py. -/
inductive Priority where
  | critical
  | high
  | normal
  | low
deriving DecidableEq, Repr

/-- QADecision enum from src/schemas.py. -/
inductive QADecision where
  | auto_send
  | draft_only
  | escalate
deriving DecidableEq, Repr

/-- The `.value` string of a QADecision member. -/
def QADecision.value : QADecision → String
  | .auto_send => "auto_send"
  | .draft_only => "draft_only"
  | .escalate => "escalate"

/-- Contact dataclass from src/schemas.py. -/
structure Contact where
  email : String
  name : Option String := none
  org_id : Option String := none
deriving DecidableEq, Repr

/-- Message dataclass from src/schemas.py (received_at as a Nat tick). -/
structure Message where
  subject : String
  body_text : String
  body_html : Option String := none
  received_at : Nat := 0
  message_id : String
  thread_id : String
deriving DecidableEq, Repr

/-- ThreadHistory dataclass from src/schemas.py. -/
structure ThreadHistory where
  messages : List Message := []
deriving DecidableEq, Repr

/-- Classification dataclass from src/schemas.py. -/
structure Classification where
  intent : Intent
  sub_intent : Option String := none
  priority : Priority := .normal
  confidence : ℚ := 0
deriving DecidableEq, Repr

/-- Action dataclass from src/schemas.py (tool_args as an association list). -/
structure Action where
  action_type : String
  tool_name : Option String := none
  tool_args : List (String × String) := []
  result_id : Option String := none
  status : String := "pending"
deriving DecidableEq, Repr

/-- TenantConfig dataclass from src/schemas.py, with its source defaults. -/
structure TenantConfig where
  tenant_id : String
  timezone : String := "Europe/London"
  working_hours_start : Nat := 9
  working_hours_end : Nat := 17
  working_days : List Nat := [0, 1, 2, 3, 4]
  tone : String := "professional"
  auto_send_enabled : Bool := false
  escalation_threshold : ℚ := 7/10
deriving DecidableEq, Repr

/-- WorkflowPayload dataclass from src/schemas.py. -/
structure WorkflowPayload where
  workflow_id : String
  tenant_id : String
  correlation_id : String
  source : List (String × String)
  contact : Contact
  message : Message
  thread_history : ThreadHistory
  tenant_config : TenantConfig
  classification : Option Classification := none
  qa_decision : Option QADecision := none
  qa_risk_score : Option ℚ := none
  action_plan : List Action := []
  created_at : Nat := 0
  updated_at : Nat := 0
deriving DecidableEq, Repr

/-- The per-stage log dict built by each agent in src/agents.py and by the
router in src/orchestrator.py. A field is `none` when the Python dict does
not contain the corresponding key. -/
structure AgentLog where
  agent : String
  status : String
  skipped : Option Bool := none
  error : Option String := none
  messages_fetched : Option Nat := none
  intent : Option String := none
  confidence : Option ℚ := none
  slots_proposed : Option Nat := none
  kb_matches : Option Nat := none
  risk_score : Option ℚ := none
  decision : Option String := none
  reason : Option String := none
deriving DecidableEq, Repr

/-- Return type of every agent: a Python exception escaping the stage is
`Except.error`, a normal return is `Except.ok (payload, log)`. -/
abbrev AgentOutput := Except String (WorkflowPayload × AgentLog)

/-- ingestion_agent from src/agents.py lines 22-42: the try body only counts
the thread-history messages (the connector call is commented out), so it
cannot raise; the stage always completes and bumps updated_at. -/
def ingestion_agent (payload : WorkflowPayload) (now : Nat) : AgentOutput :=
  Except.ok ({ payload with updated_at := now },
    { agent := "ingestion", status := "completed",
      messages_fetched := some payload.thread_history.messages.length })

/-- triage_agent from src/agents.py lines 45-73: the placeholder
classification (intent=SCHEDULING, confidence=0.85, priority=NORMAL) is
always constructed and stored; the try body cannot raise. -/
def triage_agent (payload : WorkflowPayload) (now : Nat) : AgentOutput :=
  let c : Classification :=
    { intent := .scheduling, confidence := 85/100, priority := .normal }
  Except.ok ({ payload with classification := some c, updated_at := now },
    { agent := "triage", status := "completed",
      intent := some c.intent.value, confidence := some c.confidence })

/-- admin_scheduling_agent from src/agents.py lines 76-114. The intent guard
at line 81 reads `payload.classification.intent` OUTSIDE the try block: when
classification is None this raises AttributeError past the stage boundary
(`Except.error`). On a non-matching intent the stage returns at line 83 with
the log still at status "pending" plus skipped=True, and without bumping
updated_at. -/
def admin_scheduling_agent (payload : WorkflowPayload) (now : Nat) : AgentOutput :=
  match payload.classification with
  | none => Except.error "AttributeError: NoneType object has no attribute intent"
  | some c =>
    if c.intent ≠ Intent.scheduling then
      Except.ok (payload,
        { agent := "admin_scheduling", status := "pending", skipped := some true })
    else
      let a : Action :=
        { action_type := "reply", tool_name := some "gmail",
          tool_args := [("body", "Thank you for reaching out. Here are some available times...")] }
      Except.ok ({ payload with action_plan := payload.action_plan ++ [a], updated_at := now },
        { agent := "admin_scheduling", status := "completed", slots_proposed := some 3 })

/-- support_faq_agent from src/agents.py lines 117-150; same shape as the
scheduling worker, guarded on intent SUPPORT, guard outside the try block. -/
def support_faq_agent (payload : WorkflowPayload) (now : Nat) : AgentOutput :=
  match payload.classification with
  | none => Except.error "AttributeError: NoneType object has no attribute intent"
  | some c =>
    if c.intent ≠ Intent.support then
      Except.ok (payload,
        { agent := "support_faq", status := "pending", skipped := some true })
    else
      let a : Action :=
        { action_type := "reply", tool_name := some "gmail",
          tool_args := [("body", "Based on your question, here is the information...")] }
      Except.ok ({ payload with action_plan := payload.action_plan ++ [a], updated_at := now },
        { agent := "support_faq", status := "completed", kb_matches := some 2 })

/-- The placeholder risk score hard-coded at src/agents.py line 162. -/
def riskScorePlaceholder : ℚ := 2/10

/-- qa_guardrail_agent from src/agents.py lines 153-188. Everything is inside
the try block: `payload.qa_risk_score = 0.2` succeeds first; then the read of
`payload.classification.confidence` raises AttributeError when classification
is None, which the except clause catches, producing status "failed" with the
risk score already persisted and qa_decision untouched. With a classification
present the decision rule at lines 166-178 runs. updated_at is bumped on
every path (line 187 is after the try/except). -/
def qa_guardrail_agent (payload : WorkflowPayload) (now : Nat) : AgentOutput :=
  let p1 := { payload with qa_risk_score := some riskScorePlaceholder }
  match p1.classification with
  | none =>
    Except.ok ({ p1 with updated_at := now },
      { agent := "qa_guardrail", status := "failed",
        error := some "AttributeError: NoneType object has no attribute confidence" })
  | some c =>
    let d : QADecision :=
      if c.confidence < p1.tenant_config.escalation_threshold
          ∨ riskScorePlaceholder > 7/10 then
        .escalate
      else if p1.tenant_config.auto_send_enabled = true
          ∧ riskScorePlaceholder < 3/10
          ∧ c.confidence > 85/100 then
        .auto_send
      else
        .draft_only
    Except.ok ({ p1 with qa_decision := some d, updated_at := now },
      { agent := "qa_guardrail", status := "completed",
        risk_score := some riskScorePlaceholder, decision := some d.value })

/-- The worker-routing step of the orchestrator, src/orchestrator.py lines
171-186: truthiness of `payload.classification` selects a worker by intent;
when classification is None the whole block is skipped and NO worker log
entry is appended; an unhandled intent gets the literal "worker"/"skipped"
dict with a reason. -/
def route_worker (payload : WorkflowPayload) (now : Nat) :
    Except String (WorkflowPayload × List AgentLog) :=
  match payload.classification with
  | none => Except.ok (payload, [])
  | some c =>
    if c.intent = Intent.scheduling then
      match admin_scheduling_agent payload now with
      | .error e => .error e
      | .ok (p, l) => .ok (p, [l])
    else if c.intent = Intent.support then
      match support_faq_agent payload now with
      | .error e => .error e
      | .ok (p, l) => .ok (p, [l])
    else
      Except.ok (payload,
        [{ agent := "worker", status := "skipped",
           reason := some ("No handler for intent: " ++ c.intent.value) }])

/-- The agent pipeline of src/orchestrator.py lines 160-190: ingestion, then
triage, then the conditional worker routing, then the guardrail (always);
each stage log appended in execution order. The Nat arguments are the
successive utcnow readings handed to the stages. -/
def runPipeline (payload : WorkflowPayload) (t1 t2 t3 t4 : Nat) :
    Except String (WorkflowPayload × List AgentLog) :=
  match ingestion_agent payload t1 with
  | .error e => .error e
  | .ok (p1, log1) =>
    match triage_agent p1 t2 with
    | .error e => .error e
    | .ok (p2, log2) =>
      match route_worker p2 t3 with
      | .error e => .error e
      | .ok (p3, workerLogs) =>
        match qa_guardrail_agent p3 t4 with
        | .error e => .error e
        | .ok (p4, log4) => .ok (p4, log1 :: log2 :: (workerLogs ++ [log4]))

/-- The request's `contact` dict; a field is `none` when the key is absent. -/
structure RawContact where
  email : Option String := none
  name : Option String := none
  org_id : Option String := none
deriving DecidableEq, Repr

/-- `Contact(**request.contact)` from src/orchestrator.py line 142: the
dataclass constructor raises TypeError when the required `email` argument is
missing. -/
def mkContact (r : RawContact) : Except String Contact :=
  match r.email with
  | none => Except.error "TypeError: Contact missing required argument email"
  | some e => Except.ok { email := e, name := r.name, org_id := r.org_id }

/-- The request's `message` dict; a field is `none` when the key is absent. -/
structure RawMessage where
  subject : Option String := none
  body_text : Option String := none
  body_html : Option String := none
  received_at : Option Nat := none
  message_id : Option String := none
  thread_id : Option String := none
deriving DecidableEq, Repr

/-- `Message(**request.message)` from src/orchestrator.py line 143: raises
TypeError when any required argument is missing. -/
def mkMessage (r : RawMessage) : Except String Message :=
  match r.subject, r.body_text, r.received_at, r.message_id, r.thread_id with
  | some s, some b, some ra, some mi, some ti =>
    Except.ok { subject := s, body_text := b, body_html := r.body_html,
                received_at := ra, message_id := mi, thread_id := ti }
  | _, _, _, _, _ => Except.error "TypeError: Message missing required argument"

/-- The optional per-request tenant-config override dict. -/
structure RawTenantConfig where
  timezone : Option String := none
  working_hours_start : Option Nat := none
  working_hours_end : Option Nat := none
  working_days : Option (List Nat) := none
  tone : Option String := none
  auto_send_enabled : Option Bool := none
  escalation_threshold : Option ℚ := none
deriving DecidableEq, Repr

/-- `TenantConfig(tenant_id=request.tenant_id, **request.tenant_config if
request.tenant_config else {})` from src/orchestrator.py lines 132-135:
dataclass defaults apply for every absent key. -/
def mkTenantConfig (tenant_id : String) (r : Option RawTenantConfig) : TenantConfig :=
  match r with
  | none => { tenant_id := tenant_id }
  | some o =>
    { tenant_id := tenant_id,
      timezone := o.timezone.getD "Europe/London",
      working_hours_start := o.working_hours_start.getD 9,
      working_hours_end := o.working_hours_end.getD 17,
      working_days := o.working_days.getD [0, 1, 2, 3, 4],
      tone := o.tone.getD "professional",
      auto_send_enabled := o.auto_send_enabled.getD false,
      escalation_threshold := o.escalation_threshold.getD (7/10) }

/-- IncomingMessageRequest pydantic model from src/orchestrator.py. -/
structure IncomingMessageRequest where
  tenant_id : String
  source : List (String × String)
  contact : RawContact
  message : RawMessage
  tenant_config : Option RawTenantConfig := none
deriving DecidableEq, Repr

/-- Initial payload construction, src/orchestrator.py lines 131-146: tenant
config first, then the WorkflowPayload with Contact and Message built from
the raw request dicts (either may raise, modelled as `Except.error`). -/
def buildPayload (request : IncomingMessageRequest) (workflow_id : String)
    (t0 : Nat) : Except String WorkflowPayload :=
  let tc := mkTenantConfig request.tenant_id request.tenant_config
  match mkContact request.contact with
  | .error e => .error e
  | .ok contact =>
    match mkMessage request.message with
    | .error e => .error e
    | .ok msg =>
      Except.ok
        { workflow_id := workflow_id, tenant_id := request.tenant_id,
          correlation_id := workflow_id, source := request.source,
          contact := contact, message := msg, thread_history := {},
          tenant_config := tc, created_at := t0, updated_at := t0 }

/-- WorkflowRecord persistence row from src/orchestrator.py lines 39-48
(payload snapshot kept structured rather than as JSON text). -/
structure WorkflowRecord where
  workflow_id : String
  tenant_id : String
  payload : WorkflowPayload
  created_at : Nat
  updated_at : Nat
  status : String
deriving DecidableEq, Repr

/-- WorkflowResponse pydantic model from src/orchestrator.py. -/
structure WorkflowResponse where
  workflow_id : String
  decision : Option String
  status : String
  message : Option String := none
deriving DecidableEq, Repr

deriving instance DecidableEq for Except

/-- Observable outcome of one call to the endpoint: the HTTP response
(`Except.error` models the raised HTTPException detail string), the records
this workflow wrote to the store, and the agent_logs of the run as emitted in
the success-path automation event (the failure-path event carries none). -/
structure HandleResult where
  response : Except String WorkflowResponse
  records : List WorkflowRecord
  agent_logs : List AgentLog
deriving DecidableEq, Repr

/-- handle_incoming_message from src/orchestrator.py lines 124-234. When
payload construction raises, `record` was never assigned, so the except
clause's locals() check is false: nothing is written to the store and the
HTTPException propagates with no agent_logs. Otherwise the record is stored
as "processing", the pipeline runs, and the record is updated to "completed"
(or "failed" had a stage exception escaped). t0 is creation time, t1-t4 the
stage clocks, t5 the final record-update time. -/
def handle_incoming_message (request : IncomingMessageRequest)
    (workflow_id : String) (t0 t1 t2 t3 t4 t5 : Nat) : HandleResult :=
  match buildPayload request workflow_id t0 with
  | .error e =>
    { response := .error ("Workflow processing failed: " ++ e),
      records := [], agent_logs := [] }
  | .ok payload =>
    let record0 : WorkflowRecord :=
      { workflow_id := workflow_id, tenant_id := request.tenant_id,
        payload := payload, created_at := t0, updated_at := t0,
        status := "processing" }
    match runPipeline payload t1 t2 t3 t4 with
    | .error e =>
      { response := .error ("Workflow processing failed: " ++ e),
        records := [{ record0 with status := "failed", updated_at := t5 }],
        agent_logs := [] }
    | .ok (p, logs) =>
      let resp : WorkflowResponse :=
        { workflow_id := workflow_id,
          decision := p.qa_decision.map QADecision.value,
          status := "completed",
          message := some "Workflow processed successfully" }
      let record1 : WorkflowRecord :=
        { record0 with payload := p, updated_at := t5, status := "completed" }
      { response := .ok resp, records := [record1], agent_logs := logs }

/-- The guardrail decision rule exactly as the SPEC words it (section 4.5,
claim C1): a pure function of the four inputs, first match wins, all four
inequalities strict. Written from the spec to be compared against the
embedded code. -/
def specDecisionRule (confidence risk_score : ℚ) (auto_send_enabled : Bool)
    (escalation_threshold : ℚ) : QADecision :=
  if confidence < escalation_threshold ∨ risk_score > 7/10 then
    .escalate
  else if auto_send_enabled = true ∧ risk_score < 3/10 ∧ confidence > 85/100 then
    .auto_send
  else
    .draft_only

/-- The payload a stage returned, when it returned normally. -/
def payloadOf (o : AgentOutput) : Option WorkflowPayload :=
  match o with
  | .ok (p, _) => some p
  | .error _ => none

/-- The log entry a stage returned, when it returned normally. -/
def logOf (o : AgentOutput) : Option AgentLog :=
  match o with
  | .ok (_, log) => some log
  | .error _ => none

/-- The qa_decision on the payload a stage returned (none when the stage
raised, or when the decision is unset). -/
def decisionOf (o : AgentOutput) : Option QADecision :=
  match o with
  | .ok (p, _) => p.qa_decision
  | .error _ => none

/-- A concrete inbound message used to instantiate theorems. -/
def msgW : Message :=
  { subject := "Meet?", body_text := "Can we meet", message_id := "m1",
    thread_id := "th1" }

/-- A concrete fresh payload (all enrichment fields at their defaults, so
classification is absent), as constructed by the orchestrator. -/
def payloadW : WorkflowPayload :=
  { workflow_id := "w1", tenant_id := "t1", correlation_id := "w1",
    source := [("channel", "gmail")], contact := { email := "a@example.com" },
    message := msgW, thread_history := {}, tenant_config := { tenant_id := "t1" } }

/-- A classification whose intent matches neither worker agent. -/
def clasBilling : Classification := { intent := .billing, confidence := 1/2 }

/-- payloadW enriched with a billing classification. -/
def payloadBilling : WorkflowPayload :=
  { payloadW with classification := some clasBilling }

/-- A high-confidence scheduling classification. -/
def clasAutoOn : Classification := { intent := .scheduling, confidence := 9/10 }

/-- payloadW for a tenant with auto-send enabled, carrying clasAutoOn. -/
def payloadAutoOn : WorkflowPayload :=
  { payloadW with
    tenant_config := { tenant_id := "t1", auto_send_enabled := true },
    classification := some clasAutoOn }

/-- A concrete well-formed API request. -/
def requestW : IncomingMessageRequest :=
  { tenant_id := "t1", source := [("channel", "gmail")],
    contact := { email := some "a@example.com" },
    message := { subject := some "Meet?", body_text := some "Can we meet",
                 received_at := some 0, message_id := some "m1",
                 thread_id := some "th1" } }

/-- requestW with the contact dict missing its required email key, so
payload construction raises. -/
def badRequest : IncomingMessageRequest :=
  { requestW with contact := {} }

/-- The placeholder classification the triage stage always produces. -/
def triageClassification : Classification :=
  { intent := .scheduling, confidence := 85/100, priority := .normal }

theorem risk_not_high : ¬ riskScorePlaceholder > 7/10 := by
  norm_num [riskScorePlaceholder]

theorem risk_is_low : riskScorePlaceholder < 3/10 := by
  norm_num [riskScorePlaceholder]

theorem triage_conf_not_above : ¬ triageClassification.confidence > 85/100 := by
  norm_num [triageClassification]

/-- Evaluation of the guardrail stage when a classification is present: it
returns normally, persists the placeholder risk score, and stores exactly the
spec's decision rule applied to (confidence, risk score, auto_send_enabled,
escalation_threshold). -/
theorem qa_guardrail_eval (payload : WorkflowPayload) (c : Classification)
    (now : Nat) (h : payload.classification = some c) :
    qa_guardrail_agent payload now = Except.ok
      ({ payload with
          qa_risk_score := some riskScorePlaceholder,
          qa_decision := some (specDecisionRule c.confidence riskScorePlaceholder
            payload.tenant_config.auto_send_enabled
            payload.tenant_config.escalation_threshold),
          updated_at := now },
       { agent := "qa_guardrail", status := "completed",
         risk_score := some riskScorePlaceholder,
         decision := some (specDecisionRule c.confidence riskScorePlaceholder
           payload.tenant_config.auto_send_enabled
           payload.tenant_config.escalation_threshold).value }) := by
  unfold qa_guardrail_agent specDecisionRule
  simp [h]

/-- Evaluation of the full pipeline on an arbitrary initial payload: every
stage succeeds, the triage placeholder routes to the scheduling worker, and
the guardrail decision depends only on how the tenant's escalation threshold
compares to the fixed 0.85 confidence. -/
theorem runPipeline_eval (payload : WorkflowPayload) (t1 t2 t3 t4 : Nat) :
    ∃ p logs, runPipeline payload t1 t2 t3 t4 = Except.ok (p, logs) ∧
      logs.map AgentLog.agent = ["ingestion", "triage", "admin_scheduling", "qa_guardrail"] ∧
      p.classification = some triageClassification ∧
      p.qa_risk_score = some riskScorePlaceholder ∧
      p.qa_decision = some (if triageClassification.confidence <
          payload.tenant_config.escalation_threshold
        then QADecision.escalate else QADecision.draft_only) := by
  refine ⟨_, _, rfl, rfl, rfl, rfl, ?_⟩
  show some _ = some _
  congr 1
  by_cases hth : triageClassification.confidence <
      payload.tenant_config.escalation_threshold
  · simp [triageClassification, specDecisionRule] at hth ⊢
    simp [hth]
  · simp [triageClassification, specDecisionRule] at hth ⊢
    simp [hth, risk_not_high, risk_is_low]

/-- C1: for every payload whose classification is set, the QA guardrail stage
computes the decision as a pure function of (classification.confidence,
risk_score, tenant_config.auto_send_enabled, tenant_config.escalation_threshold),
evaluated in the spec's strict first-match order with strict inequalities
(specDecisionRule); the risk_score input is the one the stage itself computes
and persists. -/
theorem C1_guardrail_matches_spec_rule (payload : WorkflowPayload)
    (c : Classification) (now : Nat) (h : payload.classification = some c) :
    decisionOf (qa_guardrail_agent payload now) =
      some (specDecisionRule c.confidence riskScorePlaceholder
        payload.tenant_config.auto_send_enabled
        payload.tenant_config.escalation_threshold) ∧
    (payloadOf (qa_guardrail_agent payload now)).map WorkflowPayload.qa_risk_score =
      some (some riskScorePlaceholder) := by
  rw [qa_guardrail_eval payload c now h]
  exact ⟨rfl, rfl⟩

/-- C1 witness: the theorem instantiated at a concrete auto-send tenant with
a confidence-0.9 scheduling classification. -/
theorem C1_guardrail_matches_spec_rule_witness :
    decisionOf (qa_guardrail_agent payloadAutoOn 5) =
      some (specDecisionRule clasAutoOn.confidence riskScorePlaceholder
        payloadAutoOn.tenant_config.auto_send_enabled
        payloadAutoOn.tenant_config.escalation_threshold) ∧
    (payloadOf (qa_guardrail_agent payloadAutoOn 5)).map WorkflowPayload.qa_risk_score =
      some (some riskScorePlaceholder) :=
  C1_guardrail_matches_spec_rule payloadAutoOn clasAutoOn 5 rfl

/-- C2: the claim says an absent classification is treated as confidence 0.0
and deterministically escalated. The code instead hits an AttributeError that
its except clause converts into a status=failed log, leaving qa_decision
unset (and never escalating): evaluated here at a concrete unclassified
payload. -/
theorem C2_unclassified_payload_not_escalated :
    payloadW.classification = none ∧
    qa_guardrail_agent payloadW 7 = Except.ok
      ({ payloadW with qa_risk_score := some riskScorePlaceholder, updated_at := 7 },
       { agent := "qa_guardrail", status := "failed",
         error := some "AttributeError: NoneType object has no attribute confidence" }) ∧
    decisionOf (qa_guardrail_agent payloadW 7) = none :=
  ⟨rfl, rfl, rfl⟩

/-- C3: with auto_send_enabled = false the guardrail decision is never
AUTO_SEND; it is ESCALATE or DRAFT_ONLY, for every confidence and
risk score. -/
theorem C3_auto_send_disabled_never_auto (payload : WorkflowPayload)
    (c : Classification) (now : Nat) (h : payload.classification = some c)
    (hauto : payload.tenant_config.auto_send_enabled = false) :
    decisionOf (qa_guardrail_agent payload now) ≠ some QADecision.auto_send ∧
    (decisionOf (qa_guardrail_agent payload now) = some QADecision.escalate ∨
     decisionOf (qa_guardrail_agent payload now) = some QADecision.draft_only) := by
  rw [qa_guardrail_eval payload c now h]
  simp only [decisionOf]
  unfold specDecisionRule
  rw [hauto]
  constructor
  · split <;> simp
  · split <;> simp

/-- C3 witness: a disabled-auto-send tenant with a billing classification. -/
theorem C3_auto_send_disabled_never_auto_witness :
    decisionOf (qa_guardrail_agent payloadBilling 6) ≠ some QADecision.auto_send ∧
    (decisionOf (qa_guardrail_agent payloadBilling 6) = some QADecision.escalate ∨
     decisionOf (qa_guardrail_agent payloadBilling 6) = some QADecision.draft_only) :=
  C3_auto_send_disabled_never_auto payloadBilling clasBilling 6 rfl rfl

/-- C4: the claim says every stage is total and never raises past its own
boundary, including on a payload with classification=None. Both worker
agents read classification.intent in their guard clause OUTSIDE the
try/except, so on an unclassified payload the AttributeError escapes the
stage: evaluated here at a concrete unclassified payload. -/
theorem C4_workers_raise_on_unclassified_payload :
    payloadW.classification = none ∧
    admin_scheduling_agent payloadW 3 =
      Except.error "AttributeError: NoneType object has no attribute intent" ∧
    support_faq_agent payloadW 3 =
      Except.error "AttributeError: NoneType object has no attribute intent" :=
  ⟨rfl, rfl, rfl⟩

/-- C5: the claim says a failed stage returns the payload unmodified except
updated_at. In the only realizable failure (guardrail on an unclassified
payload) the stage has already written qa_risk_score before the failing
attribute read, so the failed run returns a mutated enrichment field:
evaluated here at a concrete unclassified payload whose qa_risk_score
starts as None. -/
theorem C5_failed_guardrail_mutates_risk_score :
    payloadW.qa_risk_score = none ∧
    (logOf (qa_guardrail_agent payloadW 7)).map AgentLog.status = some "failed" ∧
    (payloadOf (qa_guardrail_agent payloadW 7)).map WorkflowPayload.qa_risk_score =
      some (some riskScorePlaceholder) ∧
    some (some riskScorePlaceholder) ≠
      some (payloadW.qa_risk_score) := by
  refine ⟨rfl, rfl, rfl, ?_⟩
  simp [payloadW, riskScorePlaceholder]

/-- C6 counterexample: on a billing classification the scheduling worker
returns with skipped=true and the payload untouched, but its log status is
"pending" — not "skipped" as the claim states. -/
theorem C6_counterexample_skip_status_is_pending :
    payloadBilling.classification.map Classification.intent = some Intent.billing ∧
    (logOf (admin_scheduling_agent payloadBilling 4)).map AgentLog.skipped =
      some (some true) ∧
    (logOf (admin_scheduling_agent payloadBilling 4)).map AgentLog.status =
      some "pending" ∧
    (logOf (admin_scheduling_agent payloadBilling 4)).map AgentLog.status ≠
      some "skipped" := by
  refine ⟨rfl, rfl, rfl, ?_⟩
  decide

/-- C6 amended: a worker whose intent does not match returns immediately with
skipped=true and the payload completely unchanged (enrichment, action_plan,
even updated_at), but the log status field is left at "pending" rather than
"skipped". -/
theorem C6_nonmatching_worker_skips_unchanged (payload : WorkflowPayload)
    (c : Classification) (now : Nat) (h : payload.classification = some c) :
    (c.intent ≠ Intent.scheduling →
      admin_scheduling_agent payload now = Except.ok (payload,
        { agent := "admin_scheduling", status := "pending", skipped := some true })) ∧
    (c.intent ≠ Intent.support →
      support_faq_agent payload now = Except.ok (payload,
        { agent := "support_faq", status := "pending", skipped := some true })) := by
  constructor
  · intro hi
    simp [admin_scheduling_agent, h, hi]
  · intro hi
    simp [support_faq_agent, h, hi]

/-- C6 witness: the amended theorem at the concrete billing payload. -/
theorem C6_nonmatching_worker_skips_unchanged_witness :
    (clasBilling.intent ≠ Intent.scheduling →
      admin_scheduling_agent payloadBilling 4 = Except.ok (payloadBilling,
        { agent := "admin_scheduling", status := "pending", skipped := some true })) ∧
    (clasBilling.intent ≠ Intent.support →
      support_faq_agent payloadBilling 4 = Except.ok (payloadBilling,
        { agent := "support_faq", status := "pending", skipped := some true })) :=
  C6_nonmatching_worker_skips_unchanged payloadBilling clasBilling 4 rfl

/-- C7 counterexample: the claim says every stage sets updated_at to the
current time even on the skipped outcome; the scheduling worker's skip path
returns with updated_at still at its old value 0, not the current time 4. -/
theorem C7_counterexample_skip_keeps_old_updated_at :
    payloadBilling.updated_at = 0 ∧
    (payloadOf (admin_scheduling_agent payloadBilling 4)).map
      WorkflowPayload.updated_at = some 0 ∧
    (payloadOf (admin_scheduling_agent payloadBilling 4)).map
      WorkflowPayload.updated_at ≠ some 4 := by
  refine ⟨rfl, rfl, ?_⟩
  decide

/-- C7 amended: updated_at is monotonically non-decreasing across every stage
execution; ingestion, triage and the guardrail always set it to the current
time, while the workers set it to the current time on every outcome except
the skip path, which leaves it unchanged. -/
theorem C7_updated_at_monotone (payload : WorkflowPayload) (now : Nat)
    (h : payload.updated_at ≤ now) :
    (∀ p log, ingestion_agent payload now = Except.ok (p, log) →
      payload.updated_at ≤ p.updated_at ∧ p.updated_at = now) ∧
    (∀ p log, triage_agent payload now = Except.ok (p, log) →
      payload.updated_at ≤ p.updated_at ∧ p.updated_at = now) ∧
    (∀ p log, qa_guardrail_agent payload now = Except.ok (p, log) →
      payload.updated_at ≤ p.updated_at ∧ p.updated_at = now) ∧
    (∀ p log, admin_scheduling_agent payload now = Except.ok (p, log) →
      payload.updated_at ≤ p.updated_at ∧
        (p.updated_at = now ∨ log.skipped = some true)) ∧
    (∀ p log, support_faq_agent payload now = Except.ok (p, log) →
      payload.updated_at ≤ p.updated_at ∧
        (p.updated_at = now ∨ log.skipped = some true)) := by
  refine ⟨?_, ?_, ?_, ?_, ?_⟩
  · intro p log hp
    simp only [ingestion_agent, Except.ok.injEq, Prod.mk.injEq] at hp
    obtain ⟨h1, -⟩ := hp
    subst h1
    exact ⟨h, rfl⟩
  · intro p log hp
    simp only [triage_agent, Except.ok.injEq, Prod.mk.injEq] at hp
    obtain ⟨h1, -⟩ := hp
    subst h1
    exact ⟨h, rfl⟩
  · intro p log hp
    rcases hcl : payload.classification with _ | c
    · simp only [qa_guardrail_agent, hcl, Except.ok.injEq, Prod.mk.injEq] at hp
      obtain ⟨h1, -⟩ := hp
      subst h1
      exact ⟨h, rfl⟩
    · rw [qa_guardrail_eval payload c now hcl] at hp
      simp only [Except.ok.injEq, Prod.mk.injEq] at hp
      obtain ⟨h1, -⟩ := hp
      subst h1
      exact ⟨h, rfl⟩
  · intro p log hp
    rcases hcl : payload.classification with _ | c
    · simp [admin_scheduling_agent, hcl] at hp
    · by_cases hi : c.intent = Intent.scheduling
      · simp only [admin_scheduling_agent, hcl, hi, ne_eq, not_true_eq_false,
          if_false, Except.ok.injEq, Prod.mk.injEq] at hp
        obtain ⟨h1, -⟩ := hp
        subst h1
        exact ⟨h, Or.inl rfl⟩
      · simp only [admin_scheduling_agent, hcl, ne_eq, hi, not_false_eq_true,
          if_true, Except.ok.injEq, Prod.mk.injEq] at hp
        obtain ⟨h1, h2⟩ := hp
        subst h1
        subst h2
        exact ⟨le_refl _, Or.inr rfl⟩
  · intro p log hp
    rcases hcl : payload.classification with _ | c
    · simp [support_faq_agent, hcl] at hp
    · by_cases hi : c.intent = Intent.support
      · simp only [support_faq_agent, hcl, hi, ne_eq, not_true_eq_false,
          if_false, Except.ok.injEq, Prod.mk.injEq] at hp
        obtain ⟨h1, -⟩ := hp
        subst h1
        exact ⟨h, Or.inl rfl⟩
      · simp only [support_faq_agent, hcl, ne_eq, hi, not_false_eq_true,
          if_true, Except.ok.injEq, Prod.mk.injEq] at hp
        obtain ⟨h1, h2⟩ := hp
        subst h1
        subst h2
        exact ⟨le_refl _, Or.inr rfl⟩

/-- C7 witness: the amended theorem at the concrete billing payload. -/
theorem C7_updated_at_monotone_witness :
    (∀ p log, ingestion_agent payloadBilling 4 = Except.ok (p, log) →
      payloadBilling.updated_at ≤ p.updated_at ∧ p.updated_at = 4) ∧
    (∀ p log, triage_agent payloadBilling 4 = Except.ok (p, log) →
      payloadBilling.updated_at ≤ p.updated_at ∧ p.updated_at = 4) ∧
    (∀ p log, qa_guardrail_agent payloadBilling 4 = Except.ok (p, log) →
      payloadBilling.updated_at ≤ p.updated_at ∧ p.updated_at = 4) ∧
    (∀ p log, admin_scheduling_agent payloadBilling 4 = Except.ok (p, log) →
      payloadBilling.updated_at ≤ p.updated_at ∧
        (p.updated_at = 4 ∨ log.skipped = some true)) ∧
    (∀ p log, support_faq_agent payloadBilling 4 = Except.ok (p, log) →
      payloadBilling.updated_at ≤ p.updated_at ∧
        (p.updated_at = 4 ∨ log.skipped = some true)) :=
  C7_updated_at_monotone payloadBilling 4 (by decide)

/-- C8: whenever a workflow record ends up with status "completed", the
run's agent_logs sequence has length exactly 4: ingestion, triage, exactly
one worker-or-skip entry, and the guardrail (classification is never absent
after triage, so the absent-classification proviso never fires). -/
theorem C8_completed_workflow_has_four_logs (request : IncomingMessageRequest)
    (wid : String) (t0 t1 t2 t3 t4 t5 : Nat)
    (h : "completed" ∈ (handle_incoming_message request wid t0 t1 t2 t3 t4 t5).records.map
      WorkflowRecord.status) :
    (handle_incoming_message request wid t0 t1 t2 t3 t4 t5).agent_logs.length = 4 ∧
    (handle_incoming_message request wid t0 t1 t2 t3 t4 t5).agent_logs.map AgentLog.agent =
      ["ingestion", "triage", "admin_scheduling", "qa_guardrail"] := by
  cases hb : buildPayload request wid t0 with
  | error e =>
    rw [handle_incoming_message, hb] at h
    simp at h
  | ok payload =>
    obtain ⟨p, logs, hrun, hagents, -, -, -⟩ := runPipeline_eval payload t1 t2 t3 t4
    simp only [handle_incoming_message, hb, hrun]
    have hlen : logs.length = 4 := by
      have hl := congrArg List.length hagents
      simpa using hl
    exact ⟨hlen, hagents⟩

/-- C8 witness: a concrete well-formed request whose stored record is
"completed". -/
theorem C8_completed_workflow_has_four_logs_witness :
    (handle_incoming_message requestW "w1" 0 1 2 3 4 5).agent_logs.length = 4 ∧
    (handle_incoming_message requestW "w1" 0 1 2 3 4 5).agent_logs.map AgentLog.agent =
      ["ingestion", "triage", "admin_scheduling", "qa_guardrail"] :=
  C8_completed_workflow_has_four_logs requestW "w1" 0 1 2 3 4 5 (by decide)

/-- C9 counterexample: on a request whose contact dict lacks the required
email key, construction fails before any stage: no agent_logs and a single
propagated error as the claim says, but the store holds NO record at all —
in particular no record marked "failed", contrary to the claim. -/
theorem C9_counterexample_no_failed_record :
    buildPayload badRequest "w1" 0 =
      Except.error "TypeError: Contact missing required argument email" ∧
    (handle_incoming_message badRequest "w1" 0 1 2 3 4 5).agent_logs = [] ∧
    (handle_incoming_message badRequest "w1" 0 1 2 3 4 5).response =
      Except.error "Workflow processing failed: TypeError: Contact missing required argument email" ∧
    (handle_incoming_message badRequest "w1" 0 1 2 3 4 5).records = [] :=
  ⟨rfl, rfl, rfl, rfl⟩

/-- C9 amended: when payload construction fails before any stage runs, the
workflow is fatal: no agent_logs, a single error propagated to the caller,
and no workflow record is ever created (the failure precedes record
creation, so no record exists to be marked failed). -/
theorem C9_construction_failure_fatal_no_record (request : IncomingMessageRequest)
    (wid : String) (t0 t1 t2 t3 t4 t5 : Nat) (e : String)
    (h : buildPayload request wid t0 = Except.error e) :
    handle_incoming_message request wid t0 t1 t2 t3 t4 t5 =
      { response := Except.error ("Workflow processing failed: " ++ e),
        records := [], agent_logs := [] } := by
  rw [handle_incoming_message, h]

/-- C9 witness: the amended theorem at the concrete malformed request. -/
theorem C9_construction_failure_fatal_no_record_witness :
    handle_incoming_message badRequest "w1" 0 1 2 3 4 5 =
      { response := Except.error
          ("Workflow processing failed: " ++ "TypeError: Contact missing required argument email"),
        records := [], agent_logs := [] } :=
  C9_construction_failure_fatal_no_record badRequest "w1" 0 1 2 3 4 5
    "TypeError: Contact missing required argument email" rfl

/-- C10: every pipeline run completes with triage having set confidence to
exactly 0.85; the AUTO_SEND branch needs confidence strictly above 0.85, so
the final decision is never AUTO_SEND — always DRAFT_ONLY or ESCALATE. -/
theorem C10_completed_run_never_auto_send (payload : WorkflowPayload)
    (t1 t2 t3 t4 : Nat) :
    ∃ p logs, runPipeline payload t1 t2 t3 t4 = Except.ok (p, logs) ∧
      p.classification.map Classification.confidence = some (85/100) ∧
      p.qa_decision ≠ some QADecision.auto_send ∧
      (p.qa_decision = some QADecision.draft_only ∨
       p.qa_decision = some QADecision.escalate) := by
  obtain ⟨p, logs, hrun, -, hclass, -, hdec⟩ := runPipeline_eval payload t1 t2 t3 t4
  refine ⟨p, logs, hrun, ?_, ?_, ?_⟩
  · rw [hclass]; rfl
  · rw [hdec]; split <;> simp
  · rw [hdec]; split <;> simp

end OpsDesk
